import Mathlib

/-!
Verification development for the hdrcopier repository.

The repository contains two revisions of the program: the current crate
`hdrcopier-core` (optional `basic` and `hdr`, an mkvpropedit property-edit
builder, luminance divisor 10000) and an older single-crate revision under
`src/` (non-optional `basic`, mkvmerge builder, luminance divisor 50000).
Claims are settled against the file they cite.

Modelling conventions:
- Rust `u8`/`u32` values are modelled as `Nat`; arithmetic that is performed
  in 32-bit registers is reduced `% 2^32` where overflow is reachable, and
  `f64 as u32` casts are modelled as round-then-saturate.
- Rust `f64` fields are modelled as exact rationals `Rat`.  All divisions and
  scalings the claims talk about are exactly representable decisions on the
  rational model; IEEE rounding is not what any claim is about.
- Rust panics (`unwrap` calls, dictionary panicking arms) are modelled as `Except`
  errors or `Option.none`, with the panic message kept where a claim
  distinguishes messages.
-/

set_option maxRecDepth 100000

namespace HdrCopier

/- The Batteries rational arithmetic is irreducible by default, which blocks
`decide` on concrete parser runs; restore ordinary reducibility locally so
concrete evaluations go through the kernel. -/
attribute [local semireducible] Rat.mul Rat.inv Rat.add Rat.sub Rat.ofScientific

/-- Worker for `strContains`: does `pat` occur starting at some position? -/
def containsAux (pat : List Char) : List Char → Bool
  | [] => pat.isEmpty
  | c :: t => pat.isPrefixOf (c :: t) || containsAux pat t

/-- Rust `str::contains`: substring test, modelled on character lists. -/
def strContains (s pat : List Char) : Bool :=
  containsAux pat s

/-- Rust `str::split_once`: split at the first occurrence of `sep`,
returning the parts before and after it, or `none` when absent. -/
def splitOnceL (sep : List Char) : List Char → Option (List Char × List Char)
  | [] => if sep.isPrefixOf ([] : List Char) then some ([], []) else none
  | c :: t =>
    if sep.isPrefixOf (c :: t) then some ([], (c :: t).drop sep.length)
    else (splitOnceL sep t).map fun p => (c :: p.1, p.2)

/-- Rust `str::find` followed by slicing past the pattern: the suffix of `s`
after the first occurrence of `pat`, or `none` when `pat` does not occur. -/
def dropThrough (pat : List Char) : List Char → Option (List Char)
  | [] => if pat.isPrefixOf ([] : List Char) then some [] else none
  | c :: t =>
    if pat.isPrefixOf (c :: t) then some ((c :: t).drop pat.length)
    else dropThrough pat t

/-- Fuelled worker for `trimStartAll`. -/
def trimStartAllFuel (pat : List Char) : ℕ → List Char → List Char
  | 0, s => s
  | fuel + 1, s =>
    if pat ≠ [] ∧ pat.isPrefixOf s then trimStartAllFuel pat fuel (s.drop pat.length)
    else s

/-- Rust `str::trim_start_matches`: repeatedly strip the pattern from the
front.  Each successful round removes at least one character, so the length
of the input is enough fuel. -/
def trimStartAll (pat s : List Char) : List Char :=
  trimStartAllFuel pat s.length s

/-- Rust `str::trim_end_matches`: repeatedly strip the pattern from the end. -/
def trimEndAll (pat s : List Char) : List Char :=
  (trimStartAll pat.reverse s.reverse).reverse

/-- Split a character list at every newline character. -/
def splitNl : List Char → List (List Char)
  | [] => [[]]
  | c :: t =>
    if c = '\n' then [] :: splitNl t
    else
      match splitNl t with
      | [] => [[c]]
      | h :: r => (c :: h) :: r

/-- Rust `str::lines`: split on `'\n'`, drop a final empty segment produced
by a trailing newline, and strip one trailing `'\r'` from each line. -/
def rustLines (s : String) : List (List Char) :=
  let parts := splitNl s.data
  let parts := if parts.getLast? = some [] then parts.dropLast else parts
  parts.map fun l => if l.getLast? = some '\r' then l.dropLast else l

/-- Value of a run of ASCII digits. -/
def digitsVal (cs : List Char) : ℕ :=
  cs.foldl (fun a c => a * 10 + (c.toNat - 48)) 0

/-- Rust `FromStr` for unsigned integers of the given bit width: an optional
leading plus sign, then one or more ASCII digits, rejecting overflow. -/
def parseUnsigned (bits : ℕ) (s : List Char) : Option ℕ :=
  let cs := match s with
    | '+' :: rest => rest
    | other => other
  if cs ≠ [] ∧ cs.all Char.isDigit then
    let n := digitsVal cs
    if n < 2 ^ bits then some n else none
  else none

/-- Helper for `parseRat`: mantissa `digits[.digits]` as an exact rational. -/
def parseMantissa (cs : List Char) : Option ℚ :=
  match splitOnceL ['.'] cs with
  | none =>
    if cs ≠ [] ∧ cs.all Char.isDigit then some (digitsVal cs) else none
  | some (ip, fp) =>
    if (ip ≠ [] ∨ fp ≠ []) ∧ ip.all Char.isDigit ∧ fp.all Char.isDigit then
      some ((digitsVal ip : ℚ) + (digitsVal fp : ℚ) / (10 : ℚ) ^ fp.length)
    else none

/-- Rust `FromStr` for `f64`, modelled exactly over `Rat` on the decimal
grammar `[+-]? digits [. digits] [eE [+-]? digits]` actually exercised by the
probe texts (the infinity and NaN spellings play no role in any claim). -/
def parseRat (s : List Char) : Option ℚ :=
  let (sign, cs) : ℚ × List Char :=
    match s with
    | '+' :: rest => (1, rest)
    | '-' :: rest => (-1, rest)
    | other => (1, other)
  let (mant, ex) : List Char × Option (List Char) :=
    match splitOnceL ['e'] cs with
    | some (m, e) => (m, some e)
    | none =>
      match splitOnceL ['E'] cs with
      | some (m, e) => (m, some e)
      | none => (cs, none)
  match parseMantissa mant, ex with
  | some q, none => some (sign * q)
  | some q, some e =>
    let (esign, ecs) : Bool × List Char :=
      match e with
      | '+' :: rest => (false, rest)
      | '-' :: rest => (true, rest)
      | other => (false, other)
    if ecs ≠ [] ∧ ecs.all Char.isDigit then
      let k := digitsVal ecs
      some (sign * q * (if esign then ((10 : ℚ) ^ k)⁻¹ else (10 : ℚ) ^ k))
    else none
  | none, _ => none

/-- Rust `str::to_lowercase` restricted to ASCII, which is all the
dictionaries contain. -/
def lowerStr (s : String) : String :=
  String.mk (s.data.map Char.toLower)

/-- Left-pad a numeral string with zeros up to the given width. -/
def padZeros (w : ℕ) (s : String) : String :=
  String.mk (List.replicate (w - s.length) '0') ++ s

/-- Model of Rust fixed-precision float formatting over the exact rational
value: magnitude scaled by `10 ^ prec`, rounded, and printed with `prec`
digits after the point.  (Rust rounds ties on the binary value; no claim
below depends on a tie.) -/
def fmtFixed (prec : ℕ) (q : ℚ) : String :=
  let scaled : ℤ := round (|q| * (10 : ℚ) ^ prec)
  let n := scaled.toNat
  let ip := n / 10 ^ prec
  let fp := n % 10 ^ prec
  (if q < 0 then "-" else "") ++ toString ip ++
    (if prec = 0 then "" else "." ++ padZeros prec (toString fp))

/-- Rust `f64 as u32` after `f64::round`: round half away from zero, then
saturate into `[0, 2^32 - 1]`.  For the nonnegative values appearing below,
half away from zero agrees with the `round` (half up) of Mathlib, and the
clamp maps every negative result to `0` exactly as the cast does. -/
def f64RoundAsU32 (q : ℚ) : ℕ :=
  if round q < 0 then 0
  else if (2 ^ 32 - 1 : ℤ) < round q then 2 ^ 32 - 1
  else (round q).toNat

/-- Equality of modelled fallible results is decidable componentwise, so
concrete parser runs can be settled by evaluation. -/
instance {ε α : Type} [DecidableEq ε] [DecidableEq α] : DecidableEq (Except ε α) :=
  fun x y =>
    match x, y with
    | .ok a, .ok b =>
      if h : a = b then .isTrue (by rw [h]) else .isFalse (by simp [h])
    | .ok _, .error _ => .isFalse (fun hab => Except.noConfusion hab)
    | .error _, .ok _ => .isFalse (fun hab => Except.noConfusion hab)
    | .error e, .error f =>
      if h : e = f then .isTrue (by rw [h]) else .isFalse (by simp [h])

namespace Core

/-! The data model of `hdrcopier-core/src/metadata.rs`. -/

/-- `ChromaLocation` from `hdrcopier-core/src/metadata.rs`. -/
inductive ChromaLocation
  | Left
  | Center
  | TopLeft
  | Top
  | BottomLeft
  | Bottom
deriving DecidableEq

/-- Discriminant values of `ChromaLocation` as declared in the source. -/
def ChromaLocation.idx : ChromaLocation → ℕ
  | .Left => 0
  | .Center => 1
  | .TopLeft => 2
  | .Top => 3
  | .BottomLeft => 4
  | .Bottom => 5

/-- `ChromaLocation::get_horiz`. -/
def ChromaLocation.get_horiz : ChromaLocation → ℕ
  | .Left | .TopLeft | .BottomLeft => 1
  | .Center | .Top | .Bottom => 2

/-- `ChromaLocation::get_vert`. -/
def ChromaLocation.get_vert : ChromaLocation → ℕ
  | .TopLeft | .Top => 1
  | .Left | .Center => 2
  | .BottomLeft | .Bottom => 3

/-- `BasicMetadata` of the current revision; the `u8` codes are modelled as
naturals. -/
structure BasicMetadata where
  matrix : ℕ
  transfer : ℕ
  primaries : ℕ
  range : ℕ
  chroma_location : ChromaLocation
deriving DecidableEq

/-- `Default for BasicMetadata` of the current revision: unspecified codes
and limited range. -/
def BasicMetadata.default : BasicMetadata :=
  ⟨2, 2, 2, 1, .Left⟩

/-- `ColorCoordinates`: the four `f64` chromaticity pairs, as rationals. -/
structure ColorCoordinates where
  red : ℚ × ℚ
  green : ℚ × ℚ
  blue : ℚ × ℚ
  white : ℚ × ℚ
deriving DecidableEq

/-- The derived all-zero default of `ColorCoordinates`. -/
def ColorCoordinates.default : ColorCoordinates :=
  ⟨(0, 0), (0, 0), (0, 0), (0, 0)⟩

/-- `HdrMetadata` of the current revision. -/
structure HdrMetadata where
  color_coords : Option ColorCoordinates
  max_luma : ℕ
  min_luma : ℚ
  max_content_light : ℕ
  max_frame_light : ℕ
deriving DecidableEq

/-- The derived default of `HdrMetadata`: no coordinates, zero numerics. -/
def HdrMetadata.default : HdrMetadata :=
  ⟨none, 0, 0, 0, 0⟩

/-- `Metadata` of the current revision: both parts optional. -/
structure Metadata where
  basic : Option BasicMetadata
  hdr : Option HdrMetadata
deriving DecidableEq

/-- The derived default of `Metadata`: both parts absent. -/
def Metadata.default : Metadata :=
  ⟨none, none⟩

/-! Dictionaries of `hdrcopier-core/src/values.rs`.  The `parse_*` functions
panic on unrecognized names; this is modelled as `none`.  The plain `print_*`
functions panic on unrecognized codes; also `none`.  The encoder-dialect
printers panic with distinct messages for codes the dialect lacks versus
codes outside the dictionary, which is kept as an `Except` message. -/

/-- `parse_color_range`. -/
def parse_color_range (value : String) : Option ℕ :=
  match lowerStr value with
  | "limited" => some 1
  | "full" => some 0
  | _ => none

/-- `print_color_range`. -/
def print_color_range (value : ℕ) : Option String :=
  match value with
  | 0 => some "Full"
  | 1 => some "Limited"
  | _ => none

/-- `color_range_to_mkvedit_prop`: mkvpropedit uses 2 for full range because
0 means unset there. -/
def color_range_to_mkvedit_prop (value : ℕ) : ℕ :=
  if value = 0 then 2 else value

/-- `print_x265_color_range`. -/
def print_x265_color_range (value : ℕ) : Except String String :=
  match value with
  | 0 => .ok "full"
  | 1 => .ok "limited"
  | _ => .error "Unrecognized color range"

/-- `print_rav1e_color_range`. -/
def print_rav1e_color_range (value : ℕ) : Except String String :=
  match value with
  | 0 => .ok "Full"
  | 1 => .ok "Limited"
  | _ => .error "Unrecognized color range"

/-- `parse_matrix_coefficients`. -/
def parse_matrix_coefficients (value : String) : Option ℕ :=
  match lowerStr value with
  | "rgb" => some 0
  | "bt.709" => some 1
  | "unspecified" | "unset" => some 2
  | "fcc" => some 4
  | "bt.470 bg" => some 5
  | "smpte 170m" | "bt.601" => some 6
  | "smpte 240m" => some 7
  | "ycgco" => some 8
  | "bt.2020 non-constant" => some 9
  | "bt.2020 constant" => some 10
  | _ => none

/-- `print_matrix_coefficients`. -/
def print_matrix_coefficients (value : ℕ) : Option String :=
  match value with
  | 0 => some "RGB"
  | 1 => some "BT.709"
  | 2 => some "Unspecified"
  | 4 => some "FCC"
  | 5 => some "BT.470 BG"
  | 6 => some "SMPTE 170m/BT.601"
  | 7 => some "SMPTE 240m"
  | 8 => some "YCgCo"
  | 9 => some "BT.2020 Non-Constant Light"
  | 10 => some "BT.2020 Constant Light"
  | 12 => some "Chroma-Derived Non-Constant Light"
  | 13 => some "Chroma-Derived Constant Light"
  | _ => none

/-- `print_x265_matrix_coefficients`. -/
def print_x265_matrix_coefficients (value : ℕ) : Except String String :=
  match value with
  | 0 => .error "RGB not supported by x265"
  | 1 => .ok "bt709"
  | 2 => .ok "unknown"
  | 4 => .ok "fcc"
  | 5 => .ok "bt470bg"
  | 6 => .ok "smpte170m"
  | 7 => .ok "smpte240m"
  | 8 => .ok "ycgco"
  | 9 => .ok "bt2020nc"
  | 10 => .ok "bt2020c"
  | 12 => .ok "chroma-derived-nc"
  | 13 => .ok "chroma-derived-c"
  | _ => .error "Unrecognized matrix coefficients"

/-- `print_rav1e_matrix_coefficients`. -/
def print_rav1e_matrix_coefficients (value : ℕ) : Except String String :=
  match value with
  | 0 => .error "RGB not supported by rav1e"
  | 1 => .ok "BT709"
  | 2 => .ok "Unspecified"
  | 4 => .ok "FCC"
  | 5 => .ok "BT470BG"
  | 6 => .ok "BT601"
  | 7 => .ok "SMPTE240"
  | 8 => .ok "YCgCo"
  | 9 => .ok "BT2020NCL"
  | 10 => .ok "BT2020CL"
  | 12 => .ok "ChromatNCL"
  | 13 => .ok "ChromatCL"
  | _ => .error "Unrecognized matrix coefficients"

/-- `parse_transfer_characteristics`. -/
def parse_transfer_characteristics (value : String) : Option ℕ :=
  match lowerStr value with
  | "bt.709" => some 1
  | "unspecified" | "unset" => some 2
  | "bt.470 m" => some 4
  | "bt.470 bg" => some 5
  | "bt.601" => some 6
  | "smpte 240m" => some 7
  | "linear" => some 8
  | "log 100" => some 9
  | "log 316" => some 10
  | "iec 61966-2-4" => some 11
  | "iec 61966-2-1" => some 13
  | "bt.2020 10-bit" => some 14
  | "bt.2020 12-bit" => some 15
  | "pq" | "smpte 2084" => some 16
  | "arib b67" => some 18
  | _ => none

/-- `print_transfer_characteristics`. -/
def print_transfer_characteristics (value : ℕ) : Option String :=
  match value with
  | 1 => some "BT.709"
  | 2 => some "Unspecified"
  | 4 => some "BT.470 M"
  | 5 => some "BT.470 BG"
  | 6 => some "SMPTE 170m/BT.601"
  | 7 => some "SMPTE 240m"
  | 8 => some "Linear"
  | 9 => some "Log 100"
  | 10 => some "Log 316"
  | 11 => some "IEC 61966-2-4"
  | 13 => some "IEC 61966-2-1"
  | 14 => some "BT.2020 10-bit"
  | 15 => some "BT.2020 12-bit"
  | 16 => some "PQ/SMPTE 2084"
  | 18 => some "ARIB B67"
  | _ => none

/-- `print_x265_transfer_characteristics`. -/
def print_x265_transfer_characteristics (value : ℕ) : Except String String :=
  match value with
  | 1 => .ok "bt709"
  | 2 => .ok "unknown"
  | 4 => .ok "bt470m"
  | 5 => .ok "bt470bg"
  | 6 => .ok "smpte170m"
  | 7 => .ok "smpte240m"
  | 8 => .ok "linear"
  | 9 => .ok "log100"
  | 10 => .ok "log316"
  | 11 => .ok "iec61966-2-4"
  | 13 => .ok "iec61966-2-1"
  | 14 => .ok "bt2020-10"
  | 15 => .ok "bt2020-12"
  | 16 => .ok "smpte2084"
  | 18 => .ok "arib-std-b67"
  | _ => .error "Unrecognized transfer characteristics"

/-- `print_rav1e_transfer_characteristics`. -/
def print_rav1e_transfer_characteristics (value : ℕ) : Except String String :=
  match value with
  | 1 => .ok "BT709"
  | 2 => .ok "Unspecified"
  | 4 => .ok "BT470M"
  | 5 => .ok "BT470BG"
  | 6 => .ok "BT601"
  | 7 => .ok "SMPTE240"
  | 8 => .ok "Linear"
  | 9 => .ok "Log100"
  | 10 => .ok "Log100Sqrt10"
  | 11 => .ok "IEC61966"
  | 13 => .ok "SRGB"
  | 14 => .ok "BT2020_10Bit"
  | 15 => .ok "BT2020_12Bit"
  | 16 => .ok "SMPTE2084"
  | 18 => .error "ARIB B67 not supported by rav1e"
  | _ => .error "Unrecognized transfer characteristics"

/-- `parse_color_primaries`. -/
def parse_color_primaries (value : String) : Option ℕ :=
  match lowerStr value with
  | "bt.709" => some 1
  | "unspecified" | "unset" => some 2
  | "bt.470 m" => some 4
  | "bt.470 bg" => some 5
  | "smpte 170m" | "bt.601" => some 6
  | "smpte 240m" => some 7
  | "film" | "ntsc" => some 8
  | "bt.2020" => some 9
  | "smpte 428" => some 10
  | "smpte 431.2" => some 11
  | "smpte 432.1" => some 12
  | "ebu 3213 e" => some 22
  | _ => none

/-- `print_color_primaries`. -/
def print_color_primaries (value : ℕ) : Option String :=
  match value with
  | 1 => some "BT.709"
  | 2 => some "Unspecified"
  | 4 => some "BT.470 M"
  | 5 => some "BT.470 BG"
  | 6 => some "SMPTE 170m/BT.601"
  | 7 => some "SMPTE 240m"
  | 8 => some "Film"
  | 9 => some "BT.2020"
  | 10 => some "SMPTE 428"
  | 11 => some "SMPTE 431.2"
  | 12 => some "SMPTE 432.1"
  | 22 => some "EBU 3213 E"
  | _ => none

/-- `print_x265_color_primaries`. -/
def print_x265_color_primaries (value : ℕ) : Except String String :=
  match value with
  | 1 => .ok "bt709"
  | 2 => .ok "unknown"
  | 4 => .ok "bt470m"
  | 5 => .ok "bt470bg"
  | 6 => .ok "smpte170m"
  | 7 => .ok "smpte240m"
  | 8 => .ok "film"
  | 9 => .ok "bt2020"
  | 10 => .ok "smpte428"
  | 11 => .ok "smpte431"
  | 12 => .ok "smpte432"
  | 22 => .error "EBU 3213 E not supported by x265"
  | _ => .error "Unrecognized color primaries"

/-- `print_rav1e_color_primaries`. -/
def print_rav1e_color_primaries (value : ℕ) : Except String String :=
  match value with
  | 1 => .ok "BT709"
  | 2 => .ok "Unspecified"
  | 4 => .ok "BT470M"
  | 5 => .ok "BT470BG"
  | 6 => .ok "BT601"
  | 7 => .ok "SMPTE240"
  | 8 => .ok "GenericFilm"
  | 9 => .ok "BT2020"
  | 10 => .ok "XYZ"
  | 11 => .ok "SMPTE431"
  | 12 => .ok "SMPTE432"
  | 22 => .ok "EBU3213"
  | _ => .error "Unrecognized color primaries"

/-- Modelled from the spec: `print_x265_chroma_location` is imported by
`hdrcopier-core/src/metadata.rs` but its definition is not among the source
files; per section 4.1 of the spec the chroma-location table maps each of
the six variants to a dialect token, which for the x265 numeric
`--chromaloc` argument is the discriminant value.  No claim below depends
on the exact token text. -/
def print_x265_chroma_location (value : ChromaLocation) : Except String String :=
  .ok (toString value.idx)

/-- Modelled from the spec: `print_svtav1_chroma_location` is imported by
`hdrcopier-core/src/metadata.rs` but missing from the given sources; per
section 4.1 each variant maps to a dialect token.  No claim below depends on
the exact token text. -/
def print_svtav1_chroma_location (value : ChromaLocation) : Except String String :=
  .ok (toString value.idx)

/-- Modelled from the spec: `print_svtav1_color_range` is missing from the
given sources; per section 4.1 a well-formed code maps to a dialect token
and anything else fails.  No claim below depends on the token text. -/
def print_svtav1_color_range (value : ℕ) : Except String String :=
  if value ≤ 1 then .ok (toString value) else .error "Unrecognized color range"

/-- Modelled from the spec: `print_svtav1_matrix_coefficients` is missing
from the given sources; codes in the dictionary map to a token, others fail.
No claim below depends on the token text. -/
def print_svtav1_matrix_coefficients (value : ℕ) : Except String String :=
  if (print_matrix_coefficients value).isSome then .ok (toString value)
  else .error "Unrecognized matrix coefficients"

/-- Modelled from the spec: `print_svtav1_transfer_characteristics` is
missing from the given sources; codes in the dictionary map to a token,
others fail.  No claim below depends on the token text. -/
def print_svtav1_transfer_characteristics (value : ℕ) : Except String String :=
  if (print_transfer_characteristics value).isSome then .ok (toString value)
  else .error "Unrecognized transfer characteristics"

/-- Modelled from the spec: `print_svtav1_color_primaries` is missing from
the given sources; codes in the dictionary map to a token, others fail.  No
claim below depends on the token text. -/
def print_svtav1_color_primaries (value : ℕ) : Except String String :=
  if (print_color_primaries value).isSome then .ok (toString value)
  else .error "Unrecognized color primaries"

/-- `format_master_display` of `hdrcopier-core/src/metadata.rs`: each
chromaticity component is scaled by 50000, rounded and cast to `u32`
(round-then-saturate); `max_luma * 10000` is a `u32` multiplication and is
reduced modulo `2 ^ 32`; `min_luma` is scaled by 10000, rounded and cast. -/
def format_master_display (coords : ColorCoordinates) (max_luma : ℕ) (min_luma : ℚ) :
    String :=
  "G(" ++ toString (f64RoundAsU32 (coords.green.1 * 50000)) ++ "," ++
    toString (f64RoundAsU32 (coords.green.2 * 50000)) ++ ")B(" ++
    toString (f64RoundAsU32 (coords.blue.1 * 50000)) ++ "," ++
    toString (f64RoundAsU32 (coords.blue.2 * 50000)) ++ ")R(" ++
    toString (f64RoundAsU32 (coords.red.1 * 50000)) ++ "," ++
    toString (f64RoundAsU32 (coords.red.2 * 50000)) ++ ")WP(" ++
    toString (f64RoundAsU32 (coords.white.1 * 50000)) ++ "," ++
    toString (f64RoundAsU32 (coords.white.2 * 50000)) ++ ")L(" ++
    toString (max_luma * 10000 % 2 ^ 32) ++ "," ++
    toString (f64RoundAsU32 (min_luma * 10000)) ++ ")"

/-- The mastering-display string exactly as claim C4 words it: each
chromaticity component is the stored value multiplied by 50000 and rounded
to the nearest integer, the maximum luminance is `max_luma * 10000`, and the
minimum luminance is `min_luma * 10000` rounded.  This is the claim-side
description to be compared with `format_master_display`. -/
def claimed_master_display (coords : ColorCoordinates) (max_luma : ℕ) (min_luma : ℚ) :
    String :=
  "G(" ++ toString (round (coords.green.1 * 50000)).toNat ++ "," ++
    toString (round (coords.green.2 * 50000)).toNat ++ ")B(" ++
    toString (round (coords.blue.1 * 50000)).toNat ++ "," ++
    toString (round (coords.blue.2 * 50000)).toNat ++ ")R(" ++
    toString (round (coords.red.1 * 50000)).toNat ++ "," ++
    toString (round (coords.red.2 * 50000)).toNat ++ ")WP(" ++
    toString (round (coords.white.1 * 50000)).toNat ++ "," ++
    toString (round (coords.white.2 * 50000)).toNat ++ ")L(" ++
    toString (max_luma * 10000) ++ "," ++
    toString (round (min_luma * 10000)).toNat ++ ")"

/-! The property-edit builder `Metadata::build_mkvmerge_command`.  The source
pushes `-s name=value` argument pairs onto a `mkvpropedit` invocation; the
assignments are modelled first as an ordered list of `(name, value)` pairs in
exactly the order and under exactly the conditions of the source, and the
flat argument list is derived from it. -/

/-- Chromaticity-coordinate assignments, emitted only when coordinates are
present (the `if let` at the end of the hdr block). -/
def coordProps : Option ColorCoordinates → List (String × String)
  | none => []
  | some cc =>
    [("chromaticity-coordinates-red-x", fmtFixed 5 cc.red.1),
     ("chromaticity-coordinates-red-y", fmtFixed 5 cc.red.2),
     ("chromaticity-coordinates-green-x", fmtFixed 5 cc.green.1),
     ("chromaticity-coordinates-green-y", fmtFixed 5 cc.green.2),
     ("chromaticity-coordinates-blue-x", fmtFixed 5 cc.blue.1),
     ("chromaticity-coordinates-blue-y", fmtFixed 5 cc.blue.2),
     ("white-coordinates-x", fmtFixed 5 cc.white.1),
     ("white-coordinates-y", fmtFixed 5 cc.white.2)]

/-- Property assignments from the `basic` block of
`Metadata::build_mkvmerge_command`. -/
def basicProps : Option BasicMetadata → List (String × String)
  | none => []
  | some basic =>
    (if basic.transfer ≠ 2 then
      [("colour-transfer-characteristics", toString basic.transfer)] else []) ++
    (if basic.primaries ≠ 2 then
      [("colour-primaries", toString basic.primaries)] else []) ++
    (if basic.matrix ≠ 2 then
      [("colour-matrix-coefficients", toString basic.matrix)] else []) ++
    [("colour-range", toString (color_range_to_mkvedit_prop basic.range)),
     ("chroma-siting-horizontal", toString basic.chroma_location.get_horiz),
     ("chroma-siting-vertical", toString basic.chroma_location.get_vert)]

/-- Property assignments from the `hdr` block of
`Metadata::build_mkvmerge_command`. -/
def hdrProps : Option HdrMetadata → List (String × String)
  | none => []
  | some hdr_data =>
    (if 0 < hdr_data.max_content_light then
      [("max-content-light", toString hdr_data.max_content_light)] else []) ++
    (if 0 < hdr_data.max_frame_light then
      [("max-frame-light", toString hdr_data.max_frame_light)] else []) ++
    [("max-luminance", toString hdr_data.max_luma),
     ("min-luminance", fmtFixed 4 hdr_data.min_luma)] ++
    coordProps hdr_data.color_coords

/-- The ordered property-assignment list of
`Metadata::build_mkvmerge_command`. -/
def mkvpropeditProps (m : Metadata) : List (String × String) :=
  basicProps m.basic ++ hdrProps m.hdr

/-- `Metadata::build_mkvmerge_command` as the full mkvpropedit argument
vector (program name kept separately by `Command::new`). -/
def build_mkvmerge_command (m : Metadata) (chapters : Option String)
    (target : String) : List String :=
  ["-e", "track:v1"] ++
    (mkvpropeditProps m).flatMap (fun p => ["-s", p.1 ++ "=" ++ p.2]) ++
    (match chapters with
     | some c => ["-c", c]
     | none => []) ++
    [target]

/-- The values the builder emits for a given property name, in order: the
assignment list filtered to one name. -/
def propVals (m : Metadata) (name : String) : List String :=
  (mkvpropeditProps m).filterMap fun p => if p.1 = name then some p.2 else none

/-- Rust `Option::unwrap`, modelled as a panic-carrying `Except`. -/
def unwrapE {α : Type} : Option α → Except String α
  | some a => .ok a
  | none => .error "called Option unwrap on a None value"

/-- The `basic` half of `Metadata::print_x265_args`. -/
def x265BasicPart : Option BasicMetadata → Except String String
  | none => .ok ""
  | some basic => do
    let r ← print_x265_color_range basic.range
    let p ← print_x265_color_primaries basic.primaries
    let t ← print_x265_transfer_characteristics basic.transfer
    let m ← print_x265_matrix_coefficients basic.matrix
    let c ← print_x265_chroma_location basic.chroma_location
    .ok ("--range " ++ r ++ " --colorprim " ++ p ++ " --transfer " ++ t ++
      " --colormatrix " ++ m ++ " --chromaloc " ++ c)

/-- The `hdr` half of `Metadata::print_x265_args`; note the unconditional
`unwrap` of `color_coords` inside the `--master-display` argument. -/
def x265HdrPart : Option HdrMetadata → Except String String
  | none => .ok ""
  | some hdr_data => do
    let cc ← unwrapE hdr_data.color_coords
    .ok (" " ++
      (if 0 < hdr_data.max_luma then
        "--max-luma " ++ toString hdr_data.max_luma ++ " " else "") ++
      (if 0 < hdr_data.min_luma then
        "--min-luma " ++ toString (f64RoundAsU32 hdr_data.min_luma) ++ " " else "") ++
      "--max-cll " ++ toString hdr_data.max_content_light ++ "," ++
      toString hdr_data.max_frame_light ++ " --master-display " ++
      format_master_display cc hdr_data.max_luma hdr_data.min_luma)

/-- `Metadata::print_x265_args`: the printed line, or the message of the
panic that aborts it. -/
def print_x265_args (m : Metadata) : Except String String := do
  let b ← x265BasicPart m.basic
  let h ← x265HdrPart m.hdr
  .ok (b ++ h)

/-- Display of an `f64` value interpolated with `{}` in the source.  Claims
below never inspect these characters, so the exact rational is printed. -/
def ratDisplay (q : ℚ) : String :=
  toString q

/-- The `basic` half of `Metadata::print_svtav1_args`. -/
def svtav1BasicPart : Option BasicMetadata → Except String String
  | none => .ok ""
  | some basic => do
    let r ← print_svtav1_color_range basic.range
    let p ← print_svtav1_color_primaries basic.primaries
    let t ← print_svtav1_transfer_characteristics basic.transfer
    let m ← print_svtav1_matrix_coefficients basic.matrix
    let c ← print_svtav1_chroma_location basic.chroma_location
    .ok ("--color-range " ++ r ++ " --color-primaries " ++ p ++
      " --transfer-characteristics " ++ t ++ " --matrix-coefficients " ++ m ++
      " --chroma-sample-position " ++ c)

/-- The `hdr` half of `Metadata::print_svtav1_args`; every coordinate is an
`unwrap` of `color_coords`. -/
def svtav1HdrPart : Option HdrMetadata → Except String String
  | none => .ok ""
  | some hdr_data => do
    let cc ← unwrapE hdr_data.color_coords
    .ok (" --content-light " ++ toString hdr_data.max_content_light ++ "," ++
      toString hdr_data.max_frame_light ++ " --mastering-display G(" ++
      ratDisplay cc.green.1 ++ "," ++ ratDisplay cc.green.2 ++ ")B(" ++
      ratDisplay cc.blue.1 ++ "," ++ ratDisplay cc.blue.2 ++ ")R(" ++
      ratDisplay cc.red.1 ++ "," ++ ratDisplay cc.red.2 ++ ")WP(" ++
      ratDisplay cc.white.1 ++ "," ++ ratDisplay cc.white.2 ++ ")L(" ++
      toString hdr_data.max_luma ++ "," ++ ratDisplay hdr_data.min_luma ++ ")")

/-- `Metadata::print_svtav1_args`. -/
def print_svtav1_args (m : Metadata) : Except String String := do
  let b ← svtav1BasicPart m.basic
  let h ← svtav1HdrPart m.hdr
  .ok (b ++ h)

/-- The `basic` half of `Metadata::print_rav1e_args` (rav1e has no chroma
location parameter). -/
def rav1eBasicPart : Option BasicMetadata → Except String String
  | none => .ok ""
  | some basic => do
    let r ← print_rav1e_color_range basic.range
    let p ← print_rav1e_color_primaries basic.primaries
    let t ← print_rav1e_transfer_characteristics basic.transfer
    let m ← print_rav1e_matrix_coefficients basic.matrix
    .ok ("--range " ++ r ++ " --primaries " ++ p ++ " --transfer " ++ t ++
      " --matrix " ++ m)

/-- The `hdr` half of `Metadata::print_rav1e_args`, with the unconditional
`unwrap` of `color_coords`. -/
def rav1eHdrPart : Option HdrMetadata → Except String String
  | none => .ok ""
  | some hdr_data => do
    let cc ← unwrapE hdr_data.color_coords
    .ok (" --content-light " ++ toString hdr_data.max_content_light ++ "," ++
      toString hdr_data.max_frame_light ++ " --mastering-display " ++
      format_master_display cc hdr_data.max_luma hdr_data.min_luma)

/-- `Metadata::print_rav1e_args`. -/
def print_rav1e_args (m : Metadata) : Except String String := do
  let b ← rav1eBasicPart m.basic
  let h ← rav1eHdrPart m.hdr
  .ok (b ++ h)

/-! The reconciler `Metadata::parse` of `hdrcopier-core/src/metadata.rs`.
The three probe invocations are opaque collaborators; the reconciler is a
pure function of their results.  Source A is the mkvinfo probe, source B the
mediainfo probe, source C the ffprobe probe.  The list of invoked sources
mirrors control flow: a source appears exactly when control reaches its
`match`. -/

/-- The three probe sources in precedence order. -/
inductive Source
  | A
  | B
  | C
deriving DecidableEq

/-- A reconciler run: the final result together with the sources invoked. -/
structure ParseOutcome where
  result : Except String Metadata
  invoked : List Source

/-- Does the working record have hdr with coordinates present
(`data.hdr.as_ref().unwrap().color_coords.is_some()` guarded by
`data.hdr.is_some()`)? -/
def hdrCoordsSome : Option HdrMetadata → Bool
  | some h => h.color_coords.isSome
  | none => false

/-- The working record seeded from source A: its result on success, the
default record when its failure was downgraded to a warning. -/
def seedOf : Except String Metadata → Metadata
  | .ok info => info
  | .error _ => Metadata.default

/-- The early-return condition after source A: `basic` populated, `hdr`
populated, and `hdr.color_coords` populated. -/
def stopAfterA (data : Metadata) : Bool :=
  data.basic.isSome && data.hdr.isSome && hdrCoordsSome data.hdr

/-- The merge performed on a source-B success: fill `basic` only when still
absent, and replace `hdr` wholesale whenever source B produced one. -/
def mergeB (data info : Metadata) : Metadata :=
  let data :=
    if data.basic.isNone && info.basic.isSome then
      { data with basic := info.basic }
    else data
  if info.hdr.isSome then { data with hdr := info.hdr } else data

/-- The second early-return condition, after source B: `hdr` populated and
its coordinates populated (this re-check does not look at `basic`). -/
def stopAfterB (data : Metadata) : Bool :=
  data.hdr.isSome && hdrCoordsSome data.hdr

/-- The final step: source C only ever installs a new `hdr`, and its failure
is downgraded to a warning. -/
def applyC (data : Metadata) : Except String (Option HdrMetadata) → Metadata
  | .ok (some info) => { data with hdr := some info }
  | .ok none => data
  | .error _ => data

/-- `Metadata::parse`, as a function of the three probe results. -/
def Metadata.parse (rA rB : Except String Metadata)
    (rC : Except String (Option HdrMetadata)) : ParseOutcome :=
  let data : Metadata := seedOf rA
  if stopAfterA data then
    ⟨.ok data, [.A]⟩
  else
    match rB with
    | .error _ => ⟨.error "Unable to parse metadata", [.A, .B]⟩
    | .ok info =>
      let data := mergeB data info
      if stopAfterB data then
        ⟨.ok data, [.A, .B]⟩
      else
        ⟨.ok (applyC data rC), [.A, .B, .C]⟩

end Core

namespace Old

/-! The older single-crate revision: the data model of `src/metadata.rs` and
the probe-text parsers of `src/parse.rs`.  In this revision `basic` is not
optional and all its derived defaults are zero. -/

/-- How a parser run of the old revision fails: a recoverable error from a
failed numeric conversion (the `?` on `parse`), the recoverable
missing-header error of `parse_x265_settings`, or a panic from one of the
`unwrap` calls or dictionary lookups. -/
inductive RsErr
  | malformed
  | headerNotFound
  | panicked
deriving DecidableEq

/-- A failed `unwrap` or dictionary lookup is a panic. -/
def unwrapP {α : Type} : Option α → Except RsErr α
  | some a => .ok a
  | none => .error .panicked

/-- A failed numeric conversion propagated with `?` is a recoverable
malformed-field error. -/
def malfP {α : Type} : Option α → Except RsErr α
  | some a => .ok a
  | none => .error .malformed

/-- Fold a fallible step over a list, stopping at the first error; this is
the line loop of the parsers. -/
def foldlE {σ α ε : Type} (f : σ → α → Except ε σ) : σ → List α → Except ε σ
  | st, [] => .ok st
  | st, a :: t =>
    match f st a with
    | .ok st2 => foldlE f st2 t
    | .error e => .error e

/-- `BasicMetadata` of the old revision; `derive(Default)` makes every code
zero. -/
structure BasicMetadata where
  matrix : ℕ
  range : ℕ
  transfer : ℕ
  primaries : ℕ
deriving DecidableEq, Repr

/-- The derived all-zero default. -/
def BasicMetadata.default : BasicMetadata :=
  ⟨0, 0, 0, 0⟩

/-- `HdrMetadata` of the old revision; the coordinate pairs are the same
shape as in the current revision, so `Core.ColorCoordinates` is reused. -/
structure HdrMetadata where
  color_coords : Option Core.ColorCoordinates
  max_luma : ℕ
  min_luma : ℚ
  max_content_light : ℕ
  max_frame_light : ℕ
deriving DecidableEq

/-- The derived default: no coordinates, zero numerics. -/
def HdrMetadata.default : HdrMetadata :=
  ⟨none, 0, 0, 0, 0⟩

/-- `Metadata` of the old revision: `basic` is always present. -/
structure Metadata where
  basic : BasicMetadata
  hdr : Option HdrMetadata
deriving DecidableEq

/-- Parser scan state: the working `basic` and `hdr` records and the
has-HDR-block sentinel. -/
structure ScanState where
  basic : BasicMetadata
  hdr : HdrMetadata
  has_hdr : Bool
deriving DecidableEq

/-- The initial scan state. -/
def ScanState.init : ScanState :=
  ⟨BasicMetadata.default, HdrMetadata.default, false⟩

/-- The value part of a matched line: `line.split_once(": ").unwrap().1`.
`none` here means the `unwrap` panics. -/
def lineValue (line : List Char) : Option (List Char) :=
  (splitOnceL [':', ' '] line).map Prod.snd

/-- Write one chromaticity component.  The coordinate assignments of
`parse_mkvinfo` write through `color_coords` into a fresh default record the
first time a coordinate line is seen (the record is only `Some` once a
coordinate has actually been stored, matching the explicit-absence tracking
of the data model). -/
def setCoord (h : HdrMetadata)
    (f : Core.ColorCoordinates → ℚ → Core.ColorCoordinates) (v : ℚ) : HdrMetadata :=
  let base := h.color_coords.getD Core.ColorCoordinates.default
  { h with color_coords := some (f base v) }

/-- One line of `parse_mkvinfo`: the chain of label-substring tests of the
source, each splitting at `": "` (a panic when the delimiter is absent) and
converting the value (a recoverable error when the conversion fails). -/
def mkvinfoStep (st : ScanState) (line : List Char) : Except RsErr ScanState :=
  if strContains line "Colour matrix coefficients:".data then do
    let v ← unwrapP (lineValue line)
    let n ← malfP (parseUnsigned 8 v)
    .ok { st with basic := { st.basic with matrix := n } }
  else if strContains line "Colour range:".data then do
    let v ← unwrapP (lineValue line)
    let n ← malfP (parseUnsigned 8 v)
    .ok { st with basic := { st.basic with range := n } }
  else if strContains line "Colour transfer:".data then do
    let v ← unwrapP (lineValue line)
    let n ← malfP (parseUnsigned 8 v)
    .ok { st with basic := { st.basic with transfer := n } }
  else if strContains line "Colour primaries:".data then do
    let v ← unwrapP (lineValue line)
    let n ← malfP (parseUnsigned 8 v)
    .ok { st with basic := { st.basic with primaries := n } }
  else if strContains line "Video colour mastering metadata".data then
    .ok { st with has_hdr := true }
  else if strContains line "Maximum content light:".data then do
    let v ← unwrapP (lineValue line)
    let n ← malfP (parseUnsigned 32 v)
    .ok { st with hdr := { st.hdr with max_content_light := n } }
  else if strContains line "Maximum frame light:".data then do
    let v ← unwrapP (lineValue line)
    let n ← malfP (parseUnsigned 32 v)
    .ok { st with hdr := { st.hdr with max_frame_light := n } }
  else if strContains line "Red colour coordinate x:".data then do
    let v ← unwrapP (lineValue line)
    let q ← malfP (parseRat v)
    .ok { st with hdr := setCoord st.hdr (fun c q => { c with red := (q, c.red.2) }) q }
  else if strContains line "Red colour coordinate y:".data then do
    let v ← unwrapP (lineValue line)
    let q ← malfP (parseRat v)
    .ok { st with hdr := setCoord st.hdr (fun c q => { c with red := (c.red.1, q) }) q }
  else if strContains line "Green colour coordinate x:".data then do
    let v ← unwrapP (lineValue line)
    let q ← malfP (parseRat v)
    .ok { st with hdr := setCoord st.hdr (fun c q => { c with green := (q, c.green.2) }) q }
  else if strContains line "Green colour coordinate y:".data then do
    let v ← unwrapP (lineValue line)
    let q ← malfP (parseRat v)
    .ok { st with hdr := setCoord st.hdr (fun c q => { c with green := (c.green.1, q) }) q }
  else if strContains line "Blue colour coordinate x:".data then do
    let v ← unwrapP (lineValue line)
    let q ← malfP (parseRat v)
    .ok { st with hdr := setCoord st.hdr (fun c q => { c with blue := (q, c.blue.2) }) q }
  else if strContains line "Blue colour coordinate y:".data then do
    let v ← unwrapP (lineValue line)
    let q ← malfP (parseRat v)
    .ok { st with hdr := setCoord st.hdr (fun c q => { c with blue := (c.blue.1, q) }) q }
  else if strContains line "White colour coordinate x:".data then do
    let v ← unwrapP (lineValue line)
    let q ← malfP (parseRat v)
    .ok { st with hdr := setCoord st.hdr (fun c q => { c with white := (q, c.white.2) }) q }
  else if strContains line "White colour coordinate y:".data then do
    let v ← unwrapP (lineValue line)
    let q ← malfP (parseRat v)
    .ok { st with hdr := setCoord st.hdr (fun c q => { c with white := (c.white.1, q) }) q }
  else if strContains line "Maximum luminance:".data then do
    let v ← unwrapP (lineValue line)
    let n ← malfP (parseUnsigned 32 v)
    .ok { st with hdr := { st.hdr with max_luma := n } }
  else if strContains line "Minimum luminance:".data then do
    let v ← unwrapP (lineValue line)
    let q ← malfP (parseRat v)
    .ok { st with hdr := { st.hdr with min_luma := q } }
  else
    .ok st

/-- `parse_mkvinfo`, as a function of the captured probe text. -/
def parse_mkvinfo (text : String) : Except RsErr Metadata :=
  (foldlE mkvinfoStep ScanState.init (rustLines text)).map fun st =>
    ⟨st.basic, if st.has_hdr then some st.hdr else none⟩

/-- The label substrings tested by `parse_mkvinfo`, in source order. -/
def mkvinfoLabels : List String :=
  ["Colour matrix coefficients:", "Colour range:", "Colour transfer:",
   "Colour primaries:", "Video colour mastering metadata",
   "Maximum content light:", "Maximum frame light:",
   "Red colour coordinate x:", "Red colour coordinate y:",
   "Green colour coordinate x:", "Green colour coordinate y:",
   "Blue colour coordinate x:", "Blue colour coordinate y:",
   "White colour coordinate x:", "White colour coordinate y:",
   "Maximum luminance:", "Minimum luminance:"]

/-- Strip a literal from the front, or fail: the nom `char`/`tag`
combinators. -/
def stripPre (pat s : List Char) : Option (List Char) :=
  if pat.isPrefixOf s then some (s.drop pat.length) else none

/-- Digits-only `u32` conversion: nom `digit1` has already isolated the
digits, and `parse::<u32>().unwrap()` panics on overflow (`none` here). -/
def parseU32digits (d : List Char) : Option ℕ :=
  let n := digitsVal d
  if n < 2 ^ 32 then some n else none

/-- `get_coordinate_pair` preceded by its tag: literal tag, then
`( digits , digits )`, returning the pair and the rest of the input. -/
def tagPair (tag s : List Char) : Option ((ℕ × ℕ) × List Char) := do
  let s ← stripPre tag s
  let s ← stripPre ['('] s
  let d1 := s.takeWhile Char.isDigit
  let s := s.dropWhile Char.isDigit
  if d1 = [] then none else do
  let n1 ← parseU32digits d1
  let s ← stripPre [','] s
  let d2 := s.takeWhile Char.isDigit
  let s := s.dropWhile Char.isDigit
  if d2 = [] then none else do
  let n2 ← parseU32digits d2
  let s ← stripPre [')'] s
  some ((n1, n2), s)

/-- `parse_x265_settings`: find the `master-display=` header (a recoverable
error when absent), then the fixed `G B R WP` pair sequence (each `unwrap`
of a nom result panics on mismatch), each value divided by 50000.  The
trailing `L(...)` pair is not consumed. -/
def parse_x265_settings (s : List Char) : Except RsErr Core.ColorCoordinates :=
  match dropThrough "master-display=".data s with
  | none => .error .headerNotFound
  | some rest => do
    let (g, rest) ← unwrapP (tagPair ['G'] rest)
    let (b, rest) ← unwrapP (tagPair ['B'] rest)
    let (r, rest) ← unwrapP (tagPair ['R'] rest)
    let (w, _) ← unwrapP (tagPair ['W', 'P'] rest)
    .ok ⟨((r.1 : ℚ) / 50000, (r.2 : ℚ) / 50000),
         ((g.1 : ℚ) / 50000, (g.2 : ℚ) / 50000),
         ((b.1 : ℚ) / 50000, (b.2 : ℚ) / 50000),
         ((w.1 : ℚ) / 50000, (w.2 : ℚ) / 50000)⟩

/-- One line of `parse_mediainfo`: dictionary lookups for the basic fields
(panicking on unrecognized names), unit-suffix stripping for the light
levels, the combined min/max luminance line, and the encoder-settings line
holding the mini-grammar. -/
def mediainfoStep (st : ScanState) (line : List Char) : Except RsErr ScanState :=
  if strContains line "Matrix coefficients".data then do
    let v ← unwrapP (lineValue line)
    let n ← unwrapP (Core.parse_matrix_coefficients (String.mk v))
    .ok { st with basic := { st.basic with matrix := n } }
  else if strContains line "Color range".data then do
    let v ← unwrapP (lineValue line)
    let n ← unwrapP (Core.parse_color_range (String.mk v))
    .ok { st with basic := { st.basic with range := n } }
  else if strContains line "Transfer characteristics".data then do
    let v ← unwrapP (lineValue line)
    let n ← unwrapP (Core.parse_transfer_characteristics (String.mk v))
    .ok { st with basic := { st.basic with transfer := n } }
  else if strContains line "Color primaries".data then do
    let v ← unwrapP (lineValue line)
    let n ← unwrapP (Core.parse_color_primaries (String.mk v))
    .ok { st with basic := { st.basic with primaries := n } }
  else if strContains line "Mastering display color primaries".data then
    .ok { st with has_hdr := true }
  else if strContains line "Maximum Content Light Level".data then do
    let v ← unwrapP (lineValue line)
    let n ← malfP (parseUnsigned 32 (trimEndAll " cd/m2".data v))
    .ok { st with hdr := { st.hdr with max_content_light := n } }
  else if strContains line "Maximum Frame-Average Light Level".data then do
    let v ← unwrapP (lineValue line)
    let n ← malfP (parseUnsigned 32 (trimEndAll " cd/m2".data v))
    .ok { st with hdr := { st.hdr with max_frame_light := n } }
  else if strContains line "Mastering display luminance".data then do
    let v ← unwrapP (lineValue line)
    let mm ← unwrapP (splitOnceL [',', ' '] v)
    let mn ← malfP (parseRat (trimEndAll " cd/m2".data (trimStartAll "min: ".data mm.1)))
    let mx ← malfP (parseUnsigned 32 (trimEndAll " cd/m2".data (trimStartAll "max: ".data mm.2)))
    .ok { st with hdr := { st.hdr with min_luma := mn, max_luma := mx } }
  else if strContains line "Encoding settings".data &&
      strContains line "master-display".data then do
    let settings ← unwrapP (lineValue line)
    let cc ← parse_x265_settings settings
    .ok { st with hdr := { st.hdr with color_coords := some cc } }
  else
    .ok st

/-- `parse_mediainfo`, as a function of the captured probe text. -/
def parse_mediainfo (text : String) : Except RsErr Metadata :=
  (foldlE mediainfoStep ScanState.init (rustLines text)).map fun st =>
    ⟨st.basic, if st.has_hdr then some st.hdr else none⟩

/-- The label substrings tested by `parse_mediainfo`, in source order (the
settings branch additionally requires `master-display`, so its first label
suffices for a line to be skipped). -/
def mediainfoLabels : List String :=
  ["Matrix coefficients", "Color range", "Transfer characteristics",
   "Color primaries", "Mastering display color primaries",
   "Maximum Content Light Level", "Maximum Frame-Average Light Level",
   "Mastering display luminance", "Encoding settings"]

end Old

/-! Theorems.  Claim theorems are named `cN_...`; the lemmas before them are
shared helpers. -/

/-- C1: for every input on which source A (the mkvinfo container probe)
succeeds with `basic` populated, `hdr` populated and `hdr.color_coords`
populated, `Metadata::parse` returns exactly the record source A produced,
and neither source B (mediainfo) nor source C (ffprobe) is invoked. -/
theorem c1_sourceA_short_circuit (m : Core.Metadata)
    (rB : Except String Core.Metadata) (rC : Except String (Option Core.HdrMetadata))
    (hb : m.basic.isSome = true) (hc : Core.hdrCoordsSome m.hdr = true) :
    (Core.Metadata.parse (.ok m) rB rC).result = .ok m ∧
    Core.Source.B ∉ (Core.Metadata.parse (.ok m) rB rC).invoked ∧
    Core.Source.C ∉ (Core.Metadata.parse (.ok m) rB rC).invoked := by
  have hh : m.hdr.isSome = true := by
    cases hm : m.hdr with
    | none => rw [hm] at hc; simp [Core.hdrCoordsSome] at hc
    | some h => rfl
  have hstop : Core.stopAfterA m = true := by
    simp [Core.stopAfterA, hb, hh, hc]
  refine ⟨?_, ?_, ?_⟩ <;> simp [Core.Metadata.parse, Core.seedOf, hstop]

/-- Witness for C1: a concrete fully populated source-A record is returned
unchanged with sources B and C uninvoked. -/
theorem c1_sourceA_short_circuit_witness :
    (Core.Metadata.parse
        (.ok ⟨some Core.BasicMetadata.default,
              some { Core.HdrMetadata.default with
                       color_coords := some Core.ColorCoordinates.default }⟩)
        (.error "mediainfo failed") (.error "ffprobe failed")).result =
      .ok ⟨some Core.BasicMetadata.default,
           some { Core.HdrMetadata.default with
                    color_coords := some Core.ColorCoordinates.default }⟩ ∧
    Core.Source.B ∉ (Core.Metadata.parse
        (.ok ⟨some Core.BasicMetadata.default,
              some { Core.HdrMetadata.default with
                       color_coords := some Core.ColorCoordinates.default }⟩)
        (.error "mediainfo failed") (.error "ffprobe failed")).invoked ∧
    Core.Source.C ∉ (Core.Metadata.parse
        (.ok ⟨some Core.BasicMetadata.default,
              some { Core.HdrMetadata.default with
                       color_coords := some Core.ColorCoordinates.default }⟩)
        (.error "mediainfo failed") (.error "ffprobe failed")).invoked :=
  c1_sourceA_short_circuit _ _ _ rfl rfl

/-- C2: once the source-A short circuit has not fired, a failure of source B
(mediainfo) makes the whole parse fail with the fatal error, while with
source B succeeding the parse always returns Ok whatever sources A and C
did, so failures of A and C are recoverable. -/
theorem c2_sourceB_fatal_sourcesAC_recoverable :
    (∀ (rA : Except String Core.Metadata) (e : String)
        (rC : Except String (Option Core.HdrMetadata)),
        Core.stopAfterA (Core.seedOf rA) = false →
        (Core.Metadata.parse rA (.error e) rC).result = .error "Unable to parse metadata") ∧
    (∀ (rA : Except String Core.Metadata) (m : Core.Metadata)
        (rC : Except String (Option Core.HdrMetadata)),
        ∃ r, (Core.Metadata.parse rA (.ok m) rC).result = .ok r) := by
  constructor
  · intro rA e rC h
    simp [Core.Metadata.parse, h]
  · intro rA m rC
    simp only [Core.Metadata.parse]
    by_cases h : Core.stopAfterA (Core.seedOf rA) = true
    · simp [h]
    · rw [Bool.not_eq_true] at h
      simp only [h, Bool.false_eq_true, if_false]
      by_cases h2 : Core.stopAfterB (Core.mergeB (Core.seedOf rA) m) = true
      · simp [h2]
      · rw [Bool.not_eq_true] at h2
        simp [h2]

/-- Witness for C2: with source A failed and the short circuit therefore
cold, a source-B failure aborts the parse, while a source-B success with
source C failed still returns Ok. -/
theorem c2_sourceB_fatal_sourcesAC_recoverable_witness :
    (Core.Metadata.parse (.error "mkvinfo failed") (.error "mediainfo failed")
        (.ok none)).result = .error "Unable to parse metadata" ∧
    ∃ r, (Core.Metadata.parse (.error "mkvinfo failed") (.ok Core.Metadata.default)
        (.error "ffprobe failed")).result = .ok r :=
  ⟨c2_sourceB_fatal_sourcesAC_recoverable.1 _ _ _ rfl,
   c2_sourceB_fatal_sourcesAC_recoverable.2 _ _ _⟩

/-- Binding a success feeds the value through. -/
theorem except_bind_ok {α β : Type} (a : α) (f : α → Except String β) :
    ((Except.ok a : Except String α) >>= f) = f a :=
  rfl

/-- Binding an error keeps the error. -/
theorem except_bind_error {α β : Type} (e : String) (f : α → Except String β) :
    ((Except.error e : Except String α) >>= f) = .error e :=
  rfl

/-- A bind whose left side is an error is an error. -/
theorem bind_error_left {α β : Type} (x : Except String α) (f : α → Except String β)
    (hx : ∃ e, x = .error e) : ∃ e, (x >>= f) = .error e := by
  obtain ⟨e, he⟩ := hx
  exact ⟨e, by rw [he]; rfl⟩

/-- A bind whose continuation always errors is an error. -/
theorem bind_error_all {α β : Type} (x : Except String α) (f : α → Except String β)
    (hf : ∀ a, ∃ e, f a = .error e) : ∃ e, (x >>= f) = .error e := by
  cases x with
  | error e => exact ⟨e, rfl⟩
  | ok a =>
    obtain ⟨e, he⟩ := hf a
    exact ⟨e, by rw [← he]; rfl⟩

/-- C9: canonical matrix code 0 (RGB) has no token in the x265 and rav1e
dialects; the dictionary entries fail with the not-supported panic, and the
corresponding argument serializers fail rather than emitting a token. -/
theorem c9_rgb_matrix_unsupported (m : Core.Metadata) (b : Core.BasicMetadata)
    (hb : m.basic = some b) (hm : b.matrix = 0) :
    Core.print_x265_matrix_coefficients 0 = .error "RGB not supported by x265" ∧
    Core.print_rav1e_matrix_coefficients 0 = .error "RGB not supported by rav1e" ∧
    (∃ e, Core.print_x265_args m = .error e) ∧
    (∃ e, Core.print_rav1e_args m = .error e) := by
  refine ⟨rfl, rfl, ?_, ?_⟩
  · unfold Core.print_x265_args
    apply bind_error_left
    rw [hb]
    rcases hr : Core.print_x265_color_range b.range with e | r
    · exact ⟨e, by simp [Core.x265BasicPart, hr, except_bind_error]⟩
    · rcases hp : Core.print_x265_color_primaries b.primaries with e | p
      · exact ⟨e, by simp [Core.x265BasicPart, hr, hp, except_bind_ok, except_bind_error]⟩
      · rcases ht : Core.print_x265_transfer_characteristics b.transfer with e | t
        · exact ⟨e, by
            simp [Core.x265BasicPart, hr, hp, ht, except_bind_ok, except_bind_error]⟩
        · exact ⟨"RGB not supported by x265", by
            simp [Core.x265BasicPart, hr, hp, ht, hm, Core.print_x265_matrix_coefficients,
              except_bind_ok, except_bind_error]⟩
  · unfold Core.print_rav1e_args
    apply bind_error_left
    rw [hb]
    rcases hr : Core.print_rav1e_color_range b.range with e | r
    · exact ⟨e, by simp [Core.rav1eBasicPart, hr, except_bind_error]⟩
    · rcases hp : Core.print_rav1e_color_primaries b.primaries with e | p
      · exact ⟨e, by simp [Core.rav1eBasicPart, hr, hp, except_bind_ok, except_bind_error]⟩
      · rcases ht : Core.print_rav1e_transfer_characteristics b.transfer with e | t
        · exact ⟨e, by
            simp [Core.rav1eBasicPart, hr, hp, ht, except_bind_ok, except_bind_error]⟩
        · exact ⟨"RGB not supported by rav1e", by
            simp [Core.rav1eBasicPart, hr, hp, ht, hm, Core.print_rav1e_matrix_coefficients,
              except_bind_ok, except_bind_error]⟩

/-- Witness for C9: a concrete record with matrix code 0 makes both encoder
serializers fail, and the dictionary rows are the not-supported errors. -/
theorem c9_rgb_matrix_unsupported_witness :
    Core.print_x265_matrix_coefficients 0 = .error "RGB not supported by x265" ∧
    Core.print_rav1e_matrix_coefficients 0 = .error "RGB not supported by rav1e" ∧
    (∃ e, Core.print_x265_args ⟨some ⟨0, 16, 9, 1, .Left⟩, none⟩ = .error e) ∧
    (∃ e, Core.print_rav1e_args ⟨some ⟨0, 16, 9, 1, .Left⟩, none⟩ = .error e) :=
  c9_rgb_matrix_unsupported _ _ rfl rfl

/-- C10: a `Metadata` whose `hdr` is present but whose `hdr.color_coords` is
absent makes all three encoder argument printers fail on the `unwrap` of
`color_coords` instead of omitting the mastering-display argument. -/
theorem c10_missing_coordinates_panic (m : Core.Metadata) (h : Core.HdrMetadata)
    (hh : m.hdr = some h) (hc : h.color_coords = none) :
    (∃ e, Core.print_x265_args m = .error e) ∧
    (∃ e, Core.print_rav1e_args m = .error e) ∧
    (∃ e, Core.print_svtav1_args m = .error e) ∧
    (Core.Metadata.parse (.error "mkvinfo failed")
        (.ok ⟨some Core.BasicMetadata.default, some ⟨none, 1000, 1 / 200, 0, 0⟩⟩)
        (.ok none)).result =
      .ok ⟨some Core.BasicMetadata.default, some ⟨none, 1000, 1 / 200, 0, 0⟩⟩ := by
  have hx : Core.x265HdrPart m.hdr = .error "called Option unwrap on a None value" := by
    rw [hh]
    simp [Core.x265HdrPart, hc, Core.unwrapE, except_bind_error]
  have hr : Core.rav1eHdrPart m.hdr = .error "called Option unwrap on a None value" := by
    rw [hh]
    simp [Core.rav1eHdrPart, hc, Core.unwrapE, except_bind_error]
  have hs : Core.svtav1HdrPart m.hdr = .error "called Option unwrap on a None value" := by
    rw [hh]
    simp [Core.svtav1HdrPart, hc, Core.unwrapE, except_bind_error]
  refine ⟨?_, ?_, ?_, by decide⟩
  · unfold Core.print_x265_args
    apply bind_error_all
    intro b
    exact ⟨_, by rw [hx]; rfl⟩
  · unfold Core.print_rav1e_args
    apply bind_error_all
    intro b
    exact ⟨_, by rw [hr]; rfl⟩
  · unfold Core.print_svtav1_args
    apply bind_error_all
    intro b
    exact ⟨_, by rw [hs]; rfl⟩

/-- C3 counterexample: on probe text carrying the HDR header and the exact
mini-grammar string of the claim, the parser leaves `max_luma = 0` and
`min_luma = 0`; they are not the 1000 and 0.005 the claim says are produced
by dividing the `L(10000000,50)` pair by 10000, because the mini-grammar
parser never reads the L pair. -/
theorem c3_luminance_not_from_L_pair :
    Old.parse_mediainfo
        ("Mastering display color primaries        : Display P3\nEncoding settings                        : master-display=G(13250,34499)B(7499,2999)R(34000,15999)WP(15634,16450)L(10000000,50)") =
      .ok ⟨Old.BasicMetadata.default,
           some ⟨some ⟨(0.68000, 0.31998), (0.2650, 0.68998), (0.14998, 0.05998),
                       (0.31268, 0.32900)⟩, 0, 0, 0, 0⟩⟩ ∧
    (0 : ℕ) ≠ 1000 ∧ (0 : ℚ) ≠ 0.005 := by
  refine ⟨by decide, by decide, by decide⟩

/-- C3 amended: parsing the mastering-display mini-grammar string produces
green=(0.2650,0.68998), blue=(0.14998,0.05998), red=(0.68000,0.31998),
white=(0.31268,0.32900) — each tag pair divided by the fixed scale factor
50000 — while the `L(10000000,50)` pair is ignored by the mini-grammar
parser, so the luminance fields stay at their defaults unless the separate
mastering-display-luminance probe line supplies them. -/
theorem c3_mini_grammar_coordinates :
    Old.parse_x265_settings
        "master-display=G(13250,34499)B(7499,2999)R(34000,15999)WP(15634,16450)L(10000000,50)".data =
      .ok ⟨(0.68000, 0.31998), (0.2650, 0.68998), (0.14998, 0.05998), (0.31268, 0.32900)⟩ ∧
    Old.parse_mediainfo
        ("Mastering display color primaries        : Display P3\nEncoding settings                        : master-display=G(13250,34499)B(7499,2999)R(34000,15999)WP(15634,16450)L(10000000,50)") =
      .ok ⟨Old.BasicMetadata.default,
           some ⟨some ⟨(0.68000, 0.31998), (0.2650, 0.68998), (0.14998, 0.05998),
                       (0.31268, 0.32900)⟩, 0, 0, 0, 0⟩⟩ ∧
    Old.parse_mediainfo
        ("Mastering display color primaries        : Display P3\nMastering display luminance              : min: 0.0050 cd/m2, max: 1000 cd/m2\nEncoding settings                        : master-display=G(13250,34499)B(7499,2999)R(34000,15999)WP(15634,16450)L(10000000,50)") =
      .ok ⟨Old.BasicMetadata.default,
           some ⟨some ⟨(0.68000, 0.31998), (0.2650, 0.68998), (0.14998, 0.05998),
                       (0.31268, 0.32900)⟩, 1000, 0.005, 0, 0⟩⟩ := by
  refine ⟨by decide, by decide, by decide⟩

/-- Witness for C10: a concrete record with hdr present, luminance and light
levels set, but no coordinates, makes all three printers fail. -/
theorem c10_missing_coordinates_panic_witness :
    (∃ e, Core.print_x265_args ⟨none, some ⟨none, 1000, 1 / 200, 944, 143⟩⟩ = .error e) ∧
    (∃ e, Core.print_rav1e_args ⟨none, some ⟨none, 1000, 1 / 200, 944, 143⟩⟩ = .error e) ∧
    (∃ e, Core.print_svtav1_args ⟨none, some ⟨none, 1000, 1 / 200, 944, 143⟩⟩ = .error e) ∧
    (Core.Metadata.parse (.error "mkvinfo failed")
        (.ok ⟨some Core.BasicMetadata.default, some ⟨none, 1000, 1 / 200, 0, 0⟩⟩)
        (.ok none)).result =
      .ok ⟨some Core.BasicMetadata.default, some ⟨none, 1000, 1 / 200, 0, 0⟩⟩ :=
  c10_missing_coordinates_panic _ _ rfl rfl

/-- A fallible fold whose step leaves the state unchanged on every element
returns the initial state. -/
theorem foldlE_const {σ α ε : Type} (f : σ → α → Except ε σ) (st : σ) (l : List α)
    (h : ∀ a ∈ l, f st a = .ok st) : Old.foldlE f st l = .ok st := by
  induction l with
  | nil => rfl
  | cons a t ih =>
    have ha := h a (List.mem_cons_self a t)
    simp only [Old.foldlE, ha]
    exact ih fun b hb => h b (List.mem_cons_of_mem _ hb)

/-- A line matching none of the mkvinfo labels leaves the scan state
unchanged. -/
theorem mkvinfoStep_no_label (st : Old.ScanState) (line : List Char)
    (h : ∀ lbl ∈ Old.mkvinfoLabels, strContains line lbl.data = false) :
    Old.mkvinfoStep st line = .ok st := by
  simp only [Old.mkvinfoLabels, List.forall_mem_cons, and_true] at h
  obtain ⟨h1, h2, h3, h4, h5, h6, h7, h8, h9, h10, h11, h12, h13, h14, h15, h16, h17⟩ := h
  simp [Old.mkvinfoStep, h1, h2, h3, h4, h5, h6, h7, h8, h9, h10, h11, h12, h13, h14,
    h15, h16, h17]

/-- A line matching none of the mediainfo labels leaves the scan state
unchanged. -/
theorem mediainfoStep_no_label (st : Old.ScanState) (line : List Char)
    (h : ∀ lbl ∈ Old.mediainfoLabels, strContains line lbl.data = false) :
    Old.mediainfoStep st line = .ok st := by
  simp only [Old.mediainfoLabels, List.forall_mem_cons, and_true] at h
  obtain ⟨h1, h2, h3, h4, h5, h6, h7, h8, h9⟩ := h
  simp [Old.mediainfoStep, h1, h2, h3, h4, h5, h6, h7, h8, h9]

/-- C8 amended: on probe text none of whose lines contains a label
substring — empty text in particular — both text parsers return without
failing, with `hdr = None` and `basic` left at the all-zero default record
(in this revision `basic` is not optional, so there is no `basic = None`);
and a matched line whose required numeric token cannot be parsed yields the
recoverable malformed-field error.  A matched line without the `": "`
delimiter, however, panics (see the counterexample theorem). -/
theorem c8_parsers_on_garbage :
    (∀ text : String,
        (∀ line ∈ rustLines text, ∀ lbl ∈ Old.mkvinfoLabels,
          strContains line lbl.data = false) →
        Old.parse_mkvinfo text = .ok ⟨Old.BasicMetadata.default, none⟩) ∧
    (∀ text : String,
        (∀ line ∈ rustLines text, ∀ lbl ∈ Old.mediainfoLabels,
          strContains line lbl.data = false) →
        Old.parse_mediainfo text = .ok ⟨Old.BasicMetadata.default, none⟩) ∧
    Old.parse_mkvinfo "Colour range: abc" = .error .malformed := by
  refine ⟨?_, ?_, by decide⟩
  · intro text h
    have hfold : Old.foldlE Old.mkvinfoStep Old.ScanState.init (rustLines text) =
        .ok Old.ScanState.init :=
      foldlE_const _ _ _ fun line hl => mkvinfoStep_no_label _ _ (h line hl)
    unfold Old.parse_mkvinfo
    rw [hfold]
    rfl
  · intro text h
    have hfold : Old.foldlE Old.mediainfoStep Old.ScanState.init (rustLines text) =
        .ok Old.ScanState.init :=
      foldlE_const _ _ _ fun line hl => mediainfoStep_no_label _ _ (h line hl)
    unfold Old.parse_mediainfo
    rw [hfold]
    rfl

/-- Witness for C8 as amended: concrete garbage text parses to the default
record with `hdr = None`, and a concrete malformed numeric token gives the
malformed-field error. -/
theorem c8_parsers_on_garbage_witness :
    Old.parse_mkvinfo "hello world\n\n12345" = .ok ⟨Old.BasicMetadata.default, none⟩ ∧
    Old.parse_mediainfo "hello world\n\n12345" = .ok ⟨Old.BasicMetadata.default, none⟩ ∧
    Old.parse_mkvinfo "Colour range: abc" = .error .malformed :=
  ⟨c8_parsers_on_garbage.1 _ (by decide), c8_parsers_on_garbage.2.1 _ (by decide),
   c8_parsers_on_garbage.2.2⟩

/-- C8 counterexample: the parsers do not return on every garbage input —
a line that contains a label but no `": "` delimiter makes the `unwrap` in
`parse_mkvinfo` panic, and a matched mediainfo line whose value is not in
the dictionary makes the dictionary lookup panic, which is also a failure
mode other than the malformed-field error. -/
theorem c8_panic_on_garbage_line :
    Old.parse_mkvinfo "Colour range:1" = .error .panicked ∧
    Old.parse_mediainfo "Matrix coefficients : garbage" = .error .panicked :=
  ⟨by decide, by decide⟩

/-- C5 counterexample: matrix code 6 is well formed (it has a printed
label), but parsing its printed label "SMPTE 170m/BT.601" fails — the
lookup panics — instead of returning 6; transfer code 16 ("PQ/SMPTE 2084")
fails the same way, so the two directions are not exact inverses on every
well-formed code. -/
theorem c5_combined_label_breaks_roundtrip :
    (Core.print_matrix_coefficients 6).isSome = true ∧
    Core.parse_matrix_coefficients ((Core.print_matrix_coefficients 6).getD "") = none ∧
    (Core.print_transfer_characteristics 16).isSome = true ∧
    Core.parse_transfer_characteristics
      ((Core.print_transfer_characteristics 16).getD "") = none := by
  decide

/-- C5 amended: name-to-code parsing inverts code-to-label printing for
every well-formed color-range code, and for every well-formed code of the
matrix, transfer and primaries axes except those whose printed label is a
combined or extended spelling the parser does not recognize: matrix 6, 9,
10, 12, 13; transfer 6, 16; primaries 6. -/
theorem c5_roundtrip_amended :
    (∀ c : Fin 256, (Core.print_color_range (c : ℕ)).isSome = true →
        Core.parse_color_range ((Core.print_color_range (c : ℕ)).getD "") = some (c : ℕ)) ∧
    (∀ c : Fin 256, (Core.print_matrix_coefficients (c : ℕ)).isSome = true →
        (c : ℕ) ∉ ([6, 9, 10, 12, 13] : List ℕ) →
        Core.parse_matrix_coefficients
          ((Core.print_matrix_coefficients (c : ℕ)).getD "") = some (c : ℕ)) ∧
    (∀ c : Fin 256, (Core.print_transfer_characteristics (c : ℕ)).isSome = true →
        (c : ℕ) ∉ ([6, 16] : List ℕ) →
        Core.parse_transfer_characteristics
          ((Core.print_transfer_characteristics (c : ℕ)).getD "") = some (c : ℕ)) ∧
    (∀ c : Fin 256, (Core.print_color_primaries (c : ℕ)).isSome = true → (c : ℕ) ≠ 6 →
        Core.parse_color_primaries
          ((Core.print_color_primaries (c : ℕ)).getD "") = some (c : ℕ)) := by
  refine ⟨?_, ?_, ?_, ?_⟩ <;> decide

/-- Witness for C5 as amended, at concrete codes of each axis. -/
theorem c5_roundtrip_amended_witness :
    Core.parse_color_range ((Core.print_color_range ((0 : Fin 256) : ℕ)).getD "") =
      some ((0 : Fin 256) : ℕ) ∧
    Core.parse_matrix_coefficients
        ((Core.print_matrix_coefficients ((1 : Fin 256) : ℕ)).getD "") =
      some ((1 : Fin 256) : ℕ) ∧
    Core.parse_transfer_characteristics
        ((Core.print_transfer_characteristics ((18 : Fin 256) : ℕ)).getD "") =
      some ((18 : Fin 256) : ℕ) ∧
    Core.parse_color_primaries
        ((Core.print_color_primaries ((9 : Fin 256) : ℕ)).getD "") =
      some ((9 : Fin 256) : ℕ) :=
  ⟨c5_roundtrip_amended.1 0 (by decide),
   c5_roundtrip_amended.2.1 1 (by decide) (by decide),
   c5_roundtrip_amended.2.2.1 18 (by decide) (by decide),
   c5_roundtrip_amended.2.2.2 9 (by decide) (by decide)⟩

/-- In the range where neither the negative clamp nor the saturation of the
`u32` cast can fire, the cast is exactly round-to-nearest. -/
theorem f64RoundAsU32_eq_round (q : ℚ) (h0 : 0 ≤ q) (h1 : q ≤ 4294960000) :
    f64RoundAsU32 q = (round q).toNat := by
  have hnn : (0 : ℤ) ≤ round q := by
    rw [round_eq]
    exact Int.floor_nonneg.mpr (by linarith)
  have hub : round q < 2 ^ 32 - 1 := by
    rw [round_eq]
    refine Int.floor_lt.mpr ?_
    push_cast
    linarith
  unfold f64RoundAsU32
  rw [if_neg (not_lt.mpr hnn), if_neg (not_lt.mpr (le_of_lt hub))]

/-- C4 amended: for coordinates within the data-model invariant `[0, 1]` and
luminance values whose 10000-scaling stays inside 32 bits (at most 429496),
the re-emitted mastering-display string is exactly
`G(gx,gy)B(bx,by)R(rx,ry)WP(wx,wy)L(maxl,minl)` with every chromaticity
component the stored value times 50000 rounded to nearest, `maxl` equal to
`max_luma * 10000`, and `minl` equal to `min_luma * 10000` rounded to
nearest.  Beyond that luminance bound the `u32` arithmetic of the source
wraps (or panics in debug builds), so the claim needs this proviso. -/
theorem c4_master_display_encoding (cc : Core.ColorCoordinates) (maxl : ℕ) (minl : ℚ)
    (hcc : ∀ p ∈ [cc.red, cc.green, cc.blue, cc.white],
      (0 ≤ p.1 ∧ p.1 ≤ 1) ∧ (0 ≤ p.2 ∧ p.2 ≤ 1))
    (hminl0 : 0 ≤ minl) (hminl : minl ≤ 429496) (hmaxl : maxl ≤ 429496) :
    Core.format_master_display cc maxl minl =
      Core.claimed_master_display cc maxl minl := by
  have hr := hcc cc.red (by simp)
  have hg := hcc cc.green (by simp)
  have hb := hcc cc.blue (by simp)
  have hw := hcc cc.white (by simp)
  have comp : ∀ x : ℚ, 0 ≤ x → x ≤ 1 →
      f64RoundAsU32 (x * 50000) = (round (x * 50000)).toNat := fun x hx0 hx1 =>
    f64RoundAsU32_eq_round _ (by positivity) (by nlinarith)
  have hmod : maxl * 10000 % 2 ^ 32 = maxl * 10000 :=
    Nat.mod_eq_of_lt (lt_of_le_of_lt (Nat.mul_le_mul_right _ hmaxl) (by norm_num))
  unfold Core.format_master_display Core.claimed_master_display
  rw [comp _ hg.1.1 hg.1.2, comp _ hg.2.1 hg.2.2, comp _ hb.1.1 hb.1.2,
    comp _ hb.2.1 hb.2.2, comp _ hr.1.1 hr.1.2, comp _ hr.2.1 hr.2.2,
    comp _ hw.1.1 hw.1.2, comp _ hw.2.1 hw.2.2, hmod,
    f64RoundAsU32_eq_round (minl * 10000) (by positivity) (by nlinarith)]

/-- Witness for C4 as amended: the P3-D65 coordinates with 1000 and 0.005
nits re-encode exactly as the claim describes (and the resulting string is
the canonical `G(13250,34499)...L(10000000,50)`). -/
theorem c4_master_display_encoding_witness :
    Core.format_master_display
        ⟨(0.68, 0.31998), (0.265, 0.68998), (0.14998, 0.05998), (0.31268, 0.329)⟩
        1000 0.005 =
      Core.claimed_master_display
        ⟨(0.68, 0.31998), (0.265, 0.68998), (0.14998, 0.05998), (0.31268, 0.329)⟩
        1000 0.005 :=
  c4_master_display_encoding _ _ _ (by decide) (by decide) (by decide) (by decide)

/-- C4 counterexample: at `max_luma = 429497` the emitted maximum-luminance
component is the wrapped `2704`, not `max_luma * 10000 = 4294970000` as the
claim states for every `Metadata`. -/
theorem c4_luminance_overflow_counterexample :
    Core.format_master_display Core.ColorCoordinates.default 429497 0 ≠
      Core.claimed_master_display Core.ColorCoordinates.default 429497 0 := by
  decide

/-- No property of the hdr block carries a name outside its fixed set. -/
theorem hdrProps_filter_nil (h : Option Core.HdrMetadata) (name : String)
    (hn : ∀ n ∈ (["max-content-light", "max-frame-light", "max-luminance",
        "min-luminance", "chromaticity-coordinates-red-x",
        "chromaticity-coordinates-red-y", "chromaticity-coordinates-green-x",
        "chromaticity-coordinates-green-y", "chromaticity-coordinates-blue-x",
        "chromaticity-coordinates-blue-y", "white-coordinates-x",
        "white-coordinates-y"] : List String), ¬(n = name)) :
    (Core.hdrProps h).filterMap
      (fun p => if p.1 = name then some p.2 else none) = [] := by
  simp only [List.forall_mem_cons, List.forall_mem_nil, and_true] at hn
  obtain ⟨h1, h2, h3, h4, h5, h6, h7, h8, h9, h10, h11, h12⟩ := hn
  cases h with
  | none => rfl
  | some hd =>
    cases hc : hd.color_coords <;>
      by_cases hl1 : 0 < hd.max_content_light <;>
      by_cases hl2 : 0 < hd.max_frame_light <;>
      simp [Core.hdrProps, Core.coordProps, hc, hl1, hl2, List.filterMap_cons,
        h1, h2, h3, h4, h5, h6, h7, h8, h9, h10, h11, h12]

/-- No property of the basic block carries a name outside its fixed set. -/
theorem basicProps_filter_nil (b : Option Core.BasicMetadata) (name : String)
    (hn : ∀ n ∈ (["colour-transfer-characteristics", "colour-primaries",
        "colour-matrix-coefficients", "colour-range", "chroma-siting-horizontal",
        "chroma-siting-vertical"] : List String), ¬(n = name)) :
    (Core.basicProps b).filterMap
      (fun p => if p.1 = name then some p.2 else none) = [] := by
  simp only [List.forall_mem_cons, List.forall_mem_nil, and_true] at hn
  obtain ⟨h1, h2, h3, h4, h5, h6⟩ := hn
  cases b with
  | none => rfl
  | some bb =>
    by_cases ht : bb.transfer = 2 <;> by_cases hp : bb.primaries = 2 <;>
      by_cases hm : bb.matrix = 2 <;>
      simp [Core.basicProps, ht, hp, hm, List.filterMap_cons, h1, h2, h3, h4, h5, h6]

/-- The basic block contributes the matrix assignment exactly when the
matrix code differs from the unspecified default 2. -/
theorem basicProps_filter_matrix (b : Core.BasicMetadata) :
    (Core.basicProps (some b)).filterMap
        (fun p => if p.1 = "colour-matrix-coefficients" then some p.2 else none) =
      if b.matrix ≠ 2 then [toString b.matrix] else [] := by
  by_cases ht : b.transfer = 2 <;> by_cases hp : b.primaries = 2 <;>
    by_cases hm : b.matrix = 2 <;>
    simp [Core.basicProps, ht, hp, hm, List.filterMap_cons]

/-- The basic block contributes the transfer assignment exactly when the
transfer code differs from 2. -/
theorem basicProps_filter_transfer (b : Core.BasicMetadata) :
    (Core.basicProps (some b)).filterMap
        (fun p => if p.1 = "colour-transfer-characteristics" then some p.2 else none) =
      if b.transfer ≠ 2 then [toString b.transfer] else [] := by
  by_cases ht : b.transfer = 2 <;> by_cases hp : b.primaries = 2 <;>
    by_cases hm : b.matrix = 2 <;>
    simp [Core.basicProps, ht, hp, hm, List.filterMap_cons]

/-- The basic block contributes the primaries assignment exactly when the
primaries code differs from 2. -/
theorem basicProps_filter_primaries (b : Core.BasicMetadata) :
    (Core.basicProps (some b)).filterMap
        (fun p => if p.1 = "colour-primaries" then some p.2 else none) =
      if b.primaries ≠ 2 then [toString b.primaries] else [] := by
  by_cases ht : b.transfer = 2 <;> by_cases hp : b.primaries = 2 <;>
    by_cases hm : b.matrix = 2 <;>
    simp [Core.basicProps, ht, hp, hm, List.filterMap_cons]

/-- The basic block always contributes exactly one colour-range assignment,
already translated by `color_range_to_mkvedit_prop`. -/
theorem basicProps_filter_range (b : Core.BasicMetadata) :
    (Core.basicProps (some b)).filterMap
        (fun p => if p.1 = "colour-range" then some p.2 else none) =
      [toString (Core.color_range_to_mkvedit_prop b.range)] := by
  by_cases ht : b.transfer = 2 <;> by_cases hp : b.primaries = 2 <;>
    by_cases hm : b.matrix = 2 <;>
    simp [Core.basicProps, ht, hp, hm, List.filterMap_cons]

/-- The basic block always contributes the horizontal siting value. -/
theorem basicProps_filter_sitingh (b : Core.BasicMetadata) :
    (Core.basicProps (some b)).filterMap
        (fun p => if p.1 = "chroma-siting-horizontal" then some p.2 else none) =
      [toString b.chroma_location.get_horiz] := by
  by_cases ht : b.transfer = 2 <;> by_cases hp : b.primaries = 2 <;>
    by_cases hm : b.matrix = 2 <;>
    simp [Core.basicProps, ht, hp, hm, List.filterMap_cons]

/-- The basic block always contributes the vertical siting value. -/
theorem basicProps_filter_sitingv (b : Core.BasicMetadata) :
    (Core.basicProps (some b)).filterMap
        (fun p => if p.1 = "chroma-siting-vertical" then some p.2 else none) =
      [toString b.chroma_location.get_vert] := by
  by_cases ht : b.transfer = 2 <;> by_cases hp : b.primaries = 2 <;>
    by_cases hm : b.matrix = 2 <;>
    simp [Core.basicProps, ht, hp, hm, List.filterMap_cons]

/-- The hdr block contributes max-content-light exactly when nonzero. -/
theorem hdrProps_filter_mcl (h : Core.HdrMetadata) :
    (Core.hdrProps (some h)).filterMap
        (fun p => if p.1 = "max-content-light" then some p.2 else none) =
      if 0 < h.max_content_light then [toString h.max_content_light] else [] := by
  cases hc : h.color_coords <;> by_cases hl1 : 0 < h.max_content_light <;>
    by_cases hl2 : 0 < h.max_frame_light <;>
    simp [Core.hdrProps, Core.coordProps, hc, hl1, hl2, List.filterMap_cons]

/-- The hdr block contributes max-frame-light exactly when nonzero. -/
theorem hdrProps_filter_mfl (h : Core.HdrMetadata) :
    (Core.hdrProps (some h)).filterMap
        (fun p => if p.1 = "max-frame-light" then some p.2 else none) =
      if 0 < h.max_frame_light then [toString h.max_frame_light] else [] := by
  cases hc : h.color_coords <;> by_cases hl1 : 0 < h.max_content_light <;>
    by_cases hl2 : 0 < h.max_frame_light <;>
    simp [Core.hdrProps, Core.coordProps, hc, hl1, hl2, List.filterMap_cons]

/-- The hdr block always contributes the maximum luminance. -/
theorem hdrProps_filter_maxlum (h : Core.HdrMetadata) :
    (Core.hdrProps (some h)).filterMap
        (fun p => if p.1 = "max-luminance" then some p.2 else none) =
      [toString h.max_luma] := by
  cases hc : h.color_coords <;> by_cases hl1 : 0 < h.max_content_light <;>
    by_cases hl2 : 0 < h.max_frame_light <;>
    simp [Core.hdrProps, Core.coordProps, hc, hl1, hl2, List.filterMap_cons]

/-- The hdr block always contributes the minimum luminance at 4 decimals. -/
theorem hdrProps_filter_minlum (h : Core.HdrMetadata) :
    (Core.hdrProps (some h)).filterMap
        (fun p => if p.1 = "min-luminance" then some p.2 else none) =
      [fmtFixed 4 h.min_luma] := by
  cases hc : h.color_coords <;> by_cases hl1 : 0 < h.max_content_light <;>
    by_cases hl2 : 0 < h.max_frame_light <;>
    simp [Core.hdrProps, Core.coordProps, hc, hl1, hl2, List.filterMap_cons]

/-- The hdr block contributes the red-x chromaticity exactly when the
coordinate group is present. -/
theorem hdrProps_filter_redx (h : Core.HdrMetadata) :
    (Core.hdrProps (some h)).filterMap
        (fun p => if p.1 = "chromaticity-coordinates-red-x" then some p.2 else none) =
      (match h.color_coords with
       | some cc => [fmtFixed 5 cc.red.1]
       | none => []) := by
  cases hc : h.color_coords <;> by_cases hl1 : 0 < h.max_content_light <;>
    by_cases hl2 : 0 < h.max_frame_light <;>
    simp [Core.hdrProps, Core.coordProps, hc, hl1, hl2, List.filterMap_cons]

/-- C6: when `basic` is present the property-edit builder always emits
exactly one colour-range assignment, whose value is the translation
`color_range_to_mkvedit_prop` of the canonical code — full range 0 becomes
the embedding value 2, limited 1 passes through — and the untranslated
value 0 is never emitted. -/
theorem c6_colour_range_translation (m : Core.Metadata) (b : Core.BasicMetadata)
    (hb : m.basic = some b) :
    Core.propVals m "colour-range" =
      [toString (Core.color_range_to_mkvedit_prop b.range)] ∧
    Core.color_range_to_mkvedit_prop 0 = 2 ∧
    Core.color_range_to_mkvedit_prop 1 = 1 ∧
    (b.range = 0 → ("colour-range", "0") ∉ Core.mkvpropeditProps m) := by
  have hvals : Core.propVals m "colour-range" =
      [toString (Core.color_range_to_mkvedit_prop b.range)] := by
    rw [Core.propVals, Core.mkvpropeditProps, List.filterMap_append, hb,
      basicProps_filter_range, hdrProps_filter_nil _ _ (by decide), List.append_nil]
  refine ⟨hvals, rfl, rfl, ?_⟩
  intro hr hmem
  have hzero : "0" ∈ Core.propVals m "colour-range" := by
    rw [Core.propVals]
    exact List.mem_filterMap.mpr ⟨_, hmem, by simp⟩
  rw [hvals, hr] at hzero
  simp only [Core.color_range_to_mkvedit_prop, if_pos rfl, List.mem_singleton] at hzero
  exact absurd hzero (by decide)

/-- Witness for C6 at a concrete full-range record: the emitted value is 2
and the pass-through pair is absent. -/
theorem c6_colour_range_translation_witness :
    Core.propVals ⟨some ⟨9, 16, 9, 0, .Left⟩, none⟩ "colour-range" =
      [toString (Core.color_range_to_mkvedit_prop
        (⟨9, 16, 9, 0, .Left⟩ : Core.BasicMetadata).range)] ∧
    Core.color_range_to_mkvedit_prop 0 = 2 ∧
    Core.color_range_to_mkvedit_prop 1 = 1 ∧
    ((⟨9, 16, 9, 0, .Left⟩ : Core.BasicMetadata).range = 0 →
      ("colour-range", "0") ∉ Core.mkvpropeditProps ⟨some ⟨9, 16, 9, 0, .Left⟩, none⟩) :=
  c6_colour_range_translation _ _ rfl

/-- C7: the emission rules of the property-edit builder, per field: the
matrix, transfer and primaries assignments appear exactly when the code
differs from the unspecified default 2; the chroma-siting pair always
appears when `basic` is present; the light-level assignments appear exactly
when nonzero; the luminance assignments always appear when `hdr` is
present; and the chromaticity group appears exactly when `color_coords` is
present. -/
theorem c7_emission_rules (m : Core.Metadata) :
    (∀ b, m.basic = some b →
      Core.propVals m "colour-matrix-coefficients" =
        (if b.matrix ≠ 2 then [toString b.matrix] else []) ∧
      Core.propVals m "colour-transfer-characteristics" =
        (if b.transfer ≠ 2 then [toString b.transfer] else []) ∧
      Core.propVals m "colour-primaries" =
        (if b.primaries ≠ 2 then [toString b.primaries] else []) ∧
      Core.propVals m "chroma-siting-horizontal" =
        [toString b.chroma_location.get_horiz] ∧
      Core.propVals m "chroma-siting-vertical" =
        [toString b.chroma_location.get_vert]) ∧
    (∀ h, m.hdr = some h →
      Core.propVals m "max-content-light" =
        (if 0 < h.max_content_light then [toString h.max_content_light] else []) ∧
      Core.propVals m "max-frame-light" =
        (if 0 < h.max_frame_light then [toString h.max_frame_light] else []) ∧
      Core.propVals m "max-luminance" = [toString h.max_luma] ∧
      Core.propVals m "min-luminance" = [fmtFixed 4 h.min_luma]) ∧
    ((Core.propVals m "chromaticity-coordinates-red-x" ≠ []) ↔
      ∃ h cc, m.hdr = some h ∧ h.color_coords = some cc) := by
  refine ⟨?_, ?_, ?_⟩
  · intro b hb
    refine ⟨?_, ?_, ?_, ?_, ?_⟩ <;>
      rw [Core.propVals, Core.mkvpropeditProps, List.filterMap_append, hb,
        hdrProps_filter_nil _ _ (by decide), List.append_nil]
    · exact basicProps_filter_matrix b
    · exact basicProps_filter_transfer b
    · exact basicProps_filter_primaries b
    · exact basicProps_filter_sitingh b
    · exact basicProps_filter_sitingv b
  · intro h hh
    refine ⟨?_, ?_, ?_, ?_⟩ <;>
      rw [Core.propVals, Core.mkvpropeditProps, List.filterMap_append, hh,
        basicProps_filter_nil _ _ (by decide), List.nil_append]
    · exact hdrProps_filter_mcl h
    · exact hdrProps_filter_mfl h
    · exact hdrProps_filter_maxlum h
    · exact hdrProps_filter_minlum h
  · rw [Core.propVals, Core.mkvpropeditProps, List.filterMap_append,
      basicProps_filter_nil _ _ (by decide), List.nil_append]
    cases hh : m.hdr with
    | none => simp [Core.hdrProps]
    | some h =>
      rw [hdrProps_filter_redx h]
      cases hc : h.color_coords with
      | none => simp [hc]
      | some cc => simp [hc]

/-- Witness for C7 at a concrete record with every group present. -/
theorem c7_emission_rules_witness :
    Core.propVals ⟨some ⟨9, 16, 9, 1, .TopLeft⟩,
        some ⟨some Core.ColorCoordinates.default, 1000, 1 / 200, 944, 143⟩⟩
      "colour-matrix-coefficients" =
      (if (9 : ℕ) ≠ 2 then [toString (9 : ℕ)] else []) ∧
    Core.propVals ⟨some ⟨9, 16, 9, 1, .TopLeft⟩,
        some ⟨some Core.ColorCoordinates.default, 1000, 1 / 200, 944, 143⟩⟩
      "max-luminance" = [toString (1000 : ℕ)] ∧
    ((Core.propVals ⟨some ⟨9, 16, 9, 1, .TopLeft⟩,
        some ⟨some Core.ColorCoordinates.default, 1000, 1 / 200, 944, 143⟩⟩
      "chromaticity-coordinates-red-x" ≠ []) ↔
      ∃ h cc, (⟨some ⟨9, 16, 9, 1, .TopLeft⟩,
        some ⟨some Core.ColorCoordinates.default, 1000, 1 / 200, 944, 143⟩⟩ :
          Core.Metadata).hdr = some h ∧ h.color_coords = some cc) :=
  ⟨((c7_emission_rules _).1 _ rfl).1,
   ((c7_emission_rules _).2.1 _ rfl).2.2.1,
   (c7_emission_rules _).2.2⟩

end HdrCopier

